import Mathlib

/-!
Verification of the multi-provider search aggregation engine of the
search-sdk repository, as a shallow embedding in Lean 4.

The embedding translates the TypeScript source faithfully:
  - JavaScript exceptions become values of `Except`.
  - `Error` vs `HttpError` instances become the two constructors of
    `SearchError`; the `instanceof HttpError` test becomes a match on the
    constructor, and `error.statusCode` becomes `statusCodeOf`.
  - Optional / possibly-undefined fields become `Option`; JavaScript string
    truthiness tests (undefined and the empty string are falsy) become
    `jsTruthy`.
  - `async` adapters settled by `Promise.all` become pure functions from the
    request to an `Except`; `Promise.all` preserves the input order of the
    adapter array, which the embedding mirrors with `List.map`.
  - Each provider adapter closes over its HTTP call; the embedding makes that
    call an explicit transport-oracle argument, so the response-mapping and
    error-wrapping code of the adapter stays exactly as in the source while
    the network itself is a parameter.
Diagnostics logging (the `debug` collaborator) only writes to a sink and is
omitted.
-/

set_option autoImplicit false

namespace SearchSDK

/-- An error value thrown by an adapter or by the transport.  `httpError`
models an instance of the `HttpError` class of `utils/http.ts` (it carries
the HTTP status code); `plainError` models a bare `Error`. -/
inductive SearchError where
  | httpError (message : String) (statusCode : Nat)
  | plainError (message : String)
  deriving DecidableEq, Repr

/-- `error instanceof HttpError ? error.statusCode : undefined` -/
def statusCodeOf : SearchError → Option Nat
  | SearchError.httpError _ s => some s
  | SearchError.plainError _ => none

/-- `error.message` -/
def messageOf : SearchError → String
  | SearchError.httpError m _ => m
  | SearchError.plainError m => m

/-- JavaScript truthiness of an optional string: `undefined` and the empty
string are falsy. -/
def jsTruthy : Option String → Bool
  | none => false
  | some s => !s.isEmpty

/-- JavaScript `a || b` on optional strings. -/
def jsOrStr (a b : Option String) : Option String :=
  if jsTruthy a then a else b

/-- JavaScript `a || d` where `d` is a present default string. -/
def jsOrD (a : Option String) (d : String) : String :=
  if jsTruthy a then a.getD "" else d

/-- Does the character list start with the pattern list? -/
def charsStartWith : List Char → List Char → Bool
  | _, [] => true
  | [], _ :: _ => false
  | c :: cs, d :: ds => c == d && charsStartWith cs ds

/-- Does the pattern list occur contiguously inside the character list? -/
def charsContain : List Char → List Char → Bool
  | [], pat => pat.isEmpty
  | c :: cs, pat => charsStartWith (c :: cs) pat || charsContain cs pat

/-- JavaScript `s.includes(pat)`. -/
def strIncludes (s pat : String) : Bool :=
  charsContain s.data pat.data

/-- The normalized result record (`SearchResult` of `types/index.ts`).
The opaque `raw` payload is never interpreted by the engine and is omitted. -/
structure SearchResult where
  url : String
  title : String
  snippet : Option String := none
  domain : Option String := none
  publishedDate : Option String := none
  provider : String
  deriving DecidableEq, Repr

/-- The per-call request (`SearchOptions` of `types/index.ts`).
`searchType` is the DuckDuckGo-specific extension field read by that adapter
through a cast of the same options object. -/
structure SearchOptions where
  query : Option String := none
  idList : Option String := none
  maxResults : Option Nat := none
  language : Option String := none
  region : Option String := none
  safeSearch : Option String := none
  page : Option Nat := none
  timeout : Option Nat := none
  searchType : Option String := none

/-- A configured adapter (`SearchProvider` of `types/index.ts`): a stable
name and a search operation.  The provider-specific `config` object is
closed over by `search` and not needed separately. -/
structure SearchProvider where
  name : String
  search : SearchOptions → Except SearchError (List SearchResult)

/-- Options of the engine entry point (`WebSearchOptions`): the common
search options plus the adapter list. -/
structure WebSearchOptions extends SearchOptions where
  provider : List SearchProvider

/-- The per-adapter outcome record built inside `webSearch`:
`\x7b provider: p.name, results, error \x7d`. -/
structure PerAdapterOutcome where
  provider : String
  results : List SearchResult
  error : Option String

/-- `getTroubleshootingInfo` of `index.ts`, translated branch for branch.
The status-code block is guarded by `if (statusCode)`; a `some 0` status
falls through every comparison there exactly as the falsy `0` skips the
whole block in JavaScript, so no separate truthiness test is needed. -/
def getTroubleshootingInfo (providerName : String) (errorMessage : String)
    (statusCode : Option Nat) : String :=
  let suggestions :=
    match statusCode with
    | some statusCode =>
      if statusCode == 401 || statusCode == 403 then
        "This is likely an authentication issue. Check your API key and ensure it has the correct permissions."
      else if statusCode == 400 then
        "This is likely due to invalid request parameters. Check your query and other search options."
      else if statusCode == 429 then
        "You\x27ve exceeded the rate limit for this API. Try again later or reduce your request frequency."
      else if statusCode >= 500 then
        "The search provider is experiencing server issues. Try again later."
      else ""
    | none => ""
  let suggestions :=
    if strIncludes errorMessage "[object Object]" then
      suggestions ++ "\n\nThe error response contains complex data that wasn\x27t properly formatted. Try enabling debug mode to see the full response: \x7b debug: \x7b enabled: true, logResponses: true \x7d \x7d"
    else suggestions
  if providerName == "google" then
    "Make sure your Google API key is valid and the Custom Search API is enabled. Also, check if your Search Engine ID (cx) is correct."
  else if providerName == "serpapi" then
    "Check that your SerpAPI key is valid and that you have enough credits in your account."
  else if providerName == "brave" then
    "Ensure your Brave Search API token is valid and your subscription is active."
  else if providerName == "searxng" then
    "Check if your SearXNG instance URL is correct and the server is running."
  else if providerName == "duckduckgo" then
    "DuckDuckGo scraping can be unreliable. This may be a temporary issue. Try again later."
  else suggestions

/-- The detailed failure message built in the catch branch of the
per-adapter wrapper inside `webSearch`. -/
def detailedErrorMessage (name : String) (e : SearchError) : String :=
  let errorMessage := messageOf e
  let troubleshooting := getTroubleshootingInfo name errorMessage (statusCodeOf e)
  let base := "Search with provider \x27" ++ name ++ "\x27 failed: " ++ errorMessage
  if troubleshooting.isEmpty then base
  else base ++ "\n\nTroubleshooting: " ++ troubleshooting

/-- One entry of the `searchPromises` array of `webSearch`: the try/catch
wrapper around a single adapter invocation.  A resolved search gives a
success entry; a rejected one is converted into a failure entry tagged with
the adapter name. -/
def adapterOutcome (opts : SearchOptions) (p : SearchProvider) : PerAdapterOutcome :=
  match p.search opts with
  | Except.ok results => { provider := p.name, results := results, error := none }
  | Except.error e =>
      { provider := p.name, results := [], error := some (detailedErrorMessage p.name e) }

/-- `webSearch` of `index.ts`.  The first component is the settled value of
the call (the returned list, or the message of the thrown `Error`); the
second component records which adapters had their `search` invoked, in
order, so that the no-network-activity preconditions are statable. -/
def webSearchRun (options : WebSearchOptions) :
    Except String (List SearchResult) × List String :=
  if options.provider.isEmpty then
    (Except.error "At least one search provider is required.", [])
  else
    let hasArxivProvider := options.provider.any (fun p => p.name == "arxiv")
    if !jsTruthy options.query && !(hasArxivProvider && jsTruthy options.idList) then
      (Except.error "A search query or ID list (for Arxiv) is required.", [])
    else
      let searchResults := options.provider.map (adapterOutcome options.toSearchOptions)
      let allResults :=
        (searchResults.filter (fun o => o.error.isNone)).flatMap (fun o => o.results)
      let errors := searchResults.filterMap (fun o => o.error)
      let invoked := options.provider.map (fun p => p.name)
      if allResults.isEmpty && !errors.isEmpty then
        (Except.error ("All " ++ toString options.provider.length
            ++ " provider(s) failed:\n\n" ++ String.intercalate "\n\n" errors), invoked)
      else
        (Except.ok allResults, invoked)

/-- The settled value of a `webSearch` call. -/
def webSearch (options : WebSearchOptions) : Except String (List SearchResult) :=
  (webSearchRun options).1

/-- The names of the adapters whose `search` was invoked during a
`webSearch` call, in invocation order. -/
def invokedProviders (options : WebSearchOptions) : List String :=
  (webSearchRun options).2

/-! ## HTTP transport (`utils/http.ts`) -/

/-- How one `fetch` inside `makeRequest` settles.  `success` carries the
parsed JSON body; `httpFailure` carries a non-2xx status together with the
status text and the error detail already extracted from the response body by
`parseResponseBody` (string body, `.message`, or `.error.message` — the JSON
traversal itself is mechanical and collapsed into this optional string);
`abortTimeout` is the `AbortError` raised when the timeout fires;
`networkError` is any other rejection of `fetch`. -/
inductive FetchOutcome (α : Type) where
  | success (body : α)
  | httpFailure (status : Nat) (statusText : String) (errorDetail : Option String)
  | abortTimeout
  | networkError (message : String)

/-- Default request timeout of `utils/http.ts` (15 seconds). -/
def DEFAULT_TIMEOUT : Nat := 15000

/-- `makeRequest` of `utils/http.ts`, as a function of how the underlying
`fetch` settles.  A non-ok response raises an `HttpError` whose message is
built from the status line plus the extracted error detail when that detail
is truthy; an abort raises a plain timeout error; other rejections are
re-thrown unchanged. -/
def makeRequest {α : Type} (timeout : Option Nat) (outcome : FetchOutcome α) :
    Except SearchError α :=
  let timeout := timeout.getD DEFAULT_TIMEOUT
  match outcome with
  | FetchOutcome.success body => Except.ok body
  | FetchOutcome.httpFailure status statusText errorDetail =>
      let message := "Request failed with status: " ++ toString status ++ " " ++ statusText
      let message :=
        if jsTruthy errorDetail then message ++ " - " ++ errorDetail.getD ""
        else message
      Except.error (SearchError.httpError message status)
  | FetchOutcome.abortTimeout =>
      Except.error (SearchError.plainError ("Request timed out after " ++ toString timeout ++ "ms"))
  | FetchOutcome.networkError message =>
      Except.error (SearchError.plainError message)

/-! ## Provider adapters

Each adapter is translated with its HTTP call abstracted into a transport
oracle (a function from the forwarded options to how the call settles);
URL/parameter building is mechanical and out of scope.  The response-shape
mapping and the catch-clause error wrapping are translated from each
provider source file. -/

/-- Models `new URL(url).hostname` for http(s) URLs; `none` when parsing
fails, which the adapters turn into an undefined domain. -/
def urlHostname (url : String) : Option String :=
  let cs := url.data
  let rest :=
    if charsStartWith cs ("https://".data) then some (cs.drop 8)
    else if charsStartWith cs ("http://".data) then some (cs.drop 7)
    else none
  rest.map (fun r =>
    String.mk (r.takeWhile (fun c => !(c == '/' || c == ':' || c == '?' || c == '#'))))

/-- `google.ts`: one metatag record of `item.pagemap?.metatags?.[0]`,
as an association list, plus the mapped fields of a search item. -/
structure GoogleSearchItem where
  title : String
  link : String
  snippet : String
  displayLink : String
  metatags : Option (List (String × String)) := none

/-- A Google Custom Search response; `items` is optional in the wire
format (`if (!response.items) return []`). -/
structure GoogleSearchResponse where
  items : Option (List GoogleSearchItem) := none

/-- `metatags?.[key]` -/
def lookupMeta (m : List (String × String)) (key : String) : Option String :=
  (m.find? (fun kv => kv.1 == key)).map (fun kv => kv.2)

/-- The item-to-record mapping of `google.ts`. -/
def googleMapItem (item : GoogleSearchItem) : SearchResult :=
  { url := item.link
    title := item.title
    snippet := some item.snippet
    domain := some item.displayLink
    publishedDate :=
      jsOrStr (item.metatags.bind (fun m => lookupMeta m "article:published_time"))
        (item.metatags.bind (fun m => lookupMeta m "date"))
    provider := "google" }

/-- The catch clause of the Google adapter: any `HttpError` or `Error` is
rethrown as a plain `Error` carrying only a message. -/
def googleWrapError : SearchError → SearchError
  | SearchError.httpError m _ => SearchError.plainError ("Google search failed: " ++ m)
  | SearchError.plainError m => SearchError.plainError ("Google search failed: " ++ m)

/-- `createGoogleProvider` of `google.ts` (credential validation and URL
building are out of scope; `transport` stands for the bound HTTP call). -/
def createGoogleProvider
    (transport : SearchOptions → Except SearchError GoogleSearchResponse) : SearchProvider :=
  { name := "google"
    search := fun opts =>
      match transport opts with
      | Except.ok response =>
          match response.items with
          | none => Except.ok []
          | some items => Except.ok (items.map googleMapItem)
      | Except.error e => Except.error (googleWrapError e) }

/-- `serpapi.ts`: one organic result. -/
structure SerpApiResult where
  link : String
  title : String
  snippet : Option String := none
  displayed_link : Option String := none
  date : Option String := none

/-- A SerpAPI response: an optional `error` field and optional organic
results. -/
structure SerpApiResponse where
  error : Option String := none
  organic_results : Option (List SerpApiResult) := none

/-- The item-to-record mapping of `serpapi.ts`. -/
def serpapiMapItem (result : SerpApiResult) : SearchResult :=
  { url := result.link
    title := result.title
    snippet := result.snippet
    domain := result.displayed_link
    publishedDate := result.date
    provider := "serpapi" }

/-- The catch clause of the SerpAPI adapter. -/
def serpapiWrapError : SearchError → SearchError
  | SearchError.httpError m _ => SearchError.plainError ("SerpAPI search failed: " ++ m)
  | SearchError.plainError m => SearchError.plainError ("SerpAPI search failed: " ++ m)

/-- `createSerpApiProvider` of `serpapi.ts`.  A truthy in-body `error`
field is thrown inside the try block and therefore caught and wrapped by
the same catch clause. -/
def createSerpApiProvider
    (transport : SearchOptions → Except SearchError SerpApiResponse) : SearchProvider :=
  { name := "serpapi"
    search := fun opts =>
      match transport opts with
      | Except.ok response =>
          if jsTruthy response.error then
            Except.error (serpapiWrapError (SearchError.plainError (response.error.getD "")))
          else
            match response.organic_results with
            | none => Except.ok []
            | some results => Except.ok (results.map serpapiMapItem)
      | Except.error e => Except.error (serpapiWrapError e) }

/-- `brave.ts`: one web result. -/
structure BraveSearchWeb where
  title : String
  url : String
  description : String
  age : Option String := none

/-- A Brave response, collapsed to `response.web?.results` (the only part
the adapter reads). -/
structure BraveSearchResponse where
  web_results : Option (List BraveSearchWeb) := none

/-- The item-to-record mapping of `brave.ts`; the domain comes from
`new URL(item.url).hostname` guarded by try/catch. -/
def braveMapItem (item : BraveSearchWeb) : SearchResult :=
  { url := item.url
    title := item.title
    snippet := some item.description
    domain := urlHostname item.url
    publishedDate := item.age
    provider := "brave" }

/-- The catch clause of the Brave adapter. -/
def braveWrapError : SearchError → SearchError
  | SearchError.httpError m _ => SearchError.plainError ("Brave search failed: " ++ m)
  | SearchError.plainError m => SearchError.plainError ("Brave search failed: " ++ m)

/-- `createBraveProvider` of `brave.ts`.  The missing-query check happens
before the try block and before the HTTP call, so its plain error is thrown
unwrapped and the transport is never consulted. -/
def createBraveProvider
    (transport : SearchOptions → Except SearchError BraveSearchResponse) : SearchProvider :=
  { name := "brave"
    search := fun opts =>
      if !jsTruthy opts.query then
        Except.error (SearchError.plainError "Brave search requires a query.")
      else
        match transport opts with
        | Except.ok response =>
            let results := response.web_results.getD []
            if results.isEmpty then Except.ok []
            else Except.ok (results.map braveMapItem)
        | Except.error e => Except.error (braveWrapError e) }

/-- `exa.ts`: one result. -/
structure ExaSearchResult where
  title : String
  url : String
  text : String
  publish_date : Option String := none

/-- An Exa response; `results` optional. -/
structure ExaSearchResponse where
  results : Option (List ExaSearchResult) := none

/-- The item-to-record mapping of `exa.ts`. -/
def exaMapItem (result : ExaSearchResult) : SearchResult :=
  { url := result.url
    title := result.title
    snippet := some result.text
    domain := urlHostname result.url
    publishedDate := result.publish_date
    provider := "exa" }

/-- The catch clause of the Exa adapter. -/
def exaWrapError : SearchError → SearchError
  | SearchError.httpError m _ => SearchError.plainError ("Exa search failed: " ++ m)
  | SearchError.plainError m => SearchError.plainError ("Exa search failed: " ++ m)

/-- `createExaProvider` of `exa.ts`. -/
def createExaProvider
    (transport : SearchOptions → Except SearchError ExaSearchResponse) : SearchProvider :=
  { name := "exa"
    search := fun opts =>
      match transport opts with
      | Except.ok response =>
          match response.results with
          | none => Except.ok []
          | some results =>
              if results.isEmpty then Except.ok []
              else Except.ok (results.map exaMapItem)
      | Except.error e => Except.error (exaWrapError e) }

/-- `tavily.ts`: one result. -/
structure TavilySearchResult where
  title : String
  url : String
  content : String
  score : Nat := 0
  source : Option String := none
  published_date : Option String := none

/-- A Tavily response; `results` optional. -/
structure TavilySearchResponse where
  results : Option (List TavilySearchResult) := none

/-- The item-to-record mapping of `tavily.ts`. -/
def tavilyMapItem (result : TavilySearchResult) : SearchResult :=
  { url := result.url
    title := result.title
    snippet := some result.content
    domain := result.source
    publishedDate := result.published_date
    provider := "tavily" }

/-- The catch clause of the Tavily adapter. -/
def tavilyWrapError : SearchError → SearchError
  | SearchError.httpError m _ => SearchError.plainError ("Tavily search failed: " ++ m)
  | SearchError.plainError m => SearchError.plainError ("Tavily search failed: " ++ m)

/-- `createTavilyProvider` of `tavily.ts`. -/
def createTavilyProvider
    (transport : SearchOptions → Except SearchError TavilySearchResponse) : SearchProvider :=
  { name := "tavily"
    search := fun opts =>
      match transport opts with
      | Except.ok response =>
          match response.results with
          | none => Except.ok []
          | some results => Except.ok (results.map tavilyMapItem)
      | Except.error e => Except.error (tavilyWrapError e) }

/-- `searxng.ts`: one result. -/
structure SearxNGResult where
  url : String
  title : String
  content : String
  publishedDate : Option String := none
  parsed_url : Option (List String) := none

/-- A SearXNG response; `results` optional. -/
structure SearxNGResponse where
  results : Option (List SearxNGResult) := none

/-- The item-to-record mapping of `searxng.ts`; the published date uses
`result.publishedDate || undefined`, the domain `result.parsed_url?.[1]`. -/
def searxngMapItem (result : SearxNGResult) : SearchResult :=
  { url := result.url
    title := result.title
    snippet := some result.content
    domain := result.parsed_url.bind (fun l => l[1]?)
    publishedDate := jsOrStr result.publishedDate none
    provider := "searxng" }

/-- The catch clause of the SearXNG adapter. -/
def searxngWrapError : SearchError → SearchError
  | SearchError.httpError m _ => SearchError.plainError ("SearxNG search failed: " ++ m)
  | SearchError.plainError m => SearchError.plainError ("SearxNG search failed: " ++ m)

/-- `createSearxNGProvider` of `searxng.ts`. -/
def createSearxNGProvider
    (transport : SearchOptions → Except SearchError SearxNGResponse) : SearchProvider :=
  { name := "searxng"
    search := fun opts =>
      match transport opts with
      | Except.ok response =>
          match response.results with
          | none => Except.ok []
          | some results => Except.ok (results.map searxngMapItem)
      | Except.error e => Except.error (searxngWrapError e) }

/-- Collapses maximal whitespace runs to a single space; the flag records
whether the previous character was whitespace. -/
def collapseWSAux : Bool → List Char → List Char
  | _, [] => []
  | prevWS, c :: cs =>
    if c.isWhitespace then
      if prevWS then collapseWSAux true cs
      else ' ' :: collapseWSAux true cs
    else c :: collapseWSAux false cs

/-- `normalizeText` of `duckduckgo.ts`:
`text.replace(/\s+/g, " ").trim()`. -/
def normalizeText (text : String) : String :=
  let collapsed := collapseWSAux false text.data
  String.mk (((collapsed.dropWhile (fun c => c == ' ')).reverse.dropWhile
    (fun c => c == ' ')).reverse)

/-- `normalizeUrl` of `duckduckgo.ts`. -/
def normalizeUrl (url : String) : String :=
  if url.isEmpty then ""
  else if charsStartWith url.data ("//".data) then "https:" ++ url
  else if !charsStartWith url.data ("http://".data)
      && !charsStartWith url.data ("https://".data) then "https://" ++ url
  else url

/-- `duckduckgo.ts`: one image result. -/
structure DuckDuckGoImageResult where
  title : String
  image : String
  thumbnail : String
  url : String
  height : Nat
  width : Nat
  source : String

/-- `duckduckgo.ts`: one news result.  `date` is the numeric epoch value
the source multiplies by 1000. -/
structure DuckDuckGoNewsResult where
  date : Int
  title : String
  body : String
  url : String
  source : String

/-- One record pushed by the text-search loop of `duckduckgo.ts`, built
from one regex match (href, anchor text, snippet html). -/
def ddgTextMapMatch (m : String × String × String) : SearchResult :=
  { url := normalizeUrl m.1
    title := normalizeText m.2.1
    snippet := some (normalizeText m.2.2)
    provider := "duckduckgo" }

/-- The image-result mapping of `duckduckgo.ts`. -/
def ddgImagesMapResult (r : DuckDuckGoImageResult) : SearchResult :=
  { url := r.url
    title := r.title
    snippet := some (toString r.width ++ "x" ++ toString r.height ++ " image from " ++ r.source)
    provider := "duckduckgo" }

/-- The news-result mapping of `duckduckgo.ts`.  `dateRender` stands for
the library call `new Date(value).toISOString()`, a calendar rendering no
claim interprets. -/
def ddgNewsMapResult (dateRender : Int → String) (r : DuckDuckGoNewsResult) : SearchResult :=
  { url := r.url
    title := r.title
    snippet := some r.body
    publishedDate := some (dateRender (r.date * 1000))
    provider := "duckduckgo" }

/-- The catch clause of the DuckDuckGo adapter; it distinguishes
`HttpError` from other errors in the message text, but rethrows a plain
`Error` in both cases. -/
def duckduckgoWrapError : SearchError → SearchError
  | SearchError.httpError m _ => SearchError.plainError ("DuckDuckGo API error: " ++ m)
  | SearchError.plainError m => SearchError.plainError ("DuckDuckGo search failed: " ++ m)

/-- Configuration of `createDuckDuckGoProvider`. -/
structure DuckDuckGoConfig where
  searchType : Option String := none
  useLite : Bool := false

/-- `createDuckDuckGoProvider` of `duckduckgo.ts`.  The three transports
stand for `searchText`, `searchImages` and `searchNews` up to their
response parsing (regex matches for text, JSON results otherwise); a
failed VQD extraction is a transport error with the corresponding message.
The missing-query check happens before the try block, so its error is
thrown unwrapped. -/
def createDuckDuckGoProvider (config : DuckDuckGoConfig)
    (textTransport : SearchOptions → Except SearchError (List (String × String × String)))
    (imagesTransport : SearchOptions → Except SearchError (List DuckDuckGoImageResult))
    (newsTransport : SearchOptions → Except SearchError (List DuckDuckGoNewsResult))
    (dateRender : Int → String) : SearchProvider :=
  { name := "duckduckgo"
    search := fun opts =>
      let maxResults := opts.maxResults.getD 10
      let searchType := jsOrD config.searchType "text"
      let effectiveSearchType := jsOrD opts.searchType searchType
      if !jsTruthy opts.query then
        Except.error (SearchError.plainError "DuckDuckGo search requires a query.")
      else if effectiveSearchType == "images" then
        match imagesTransport opts with
        | Except.ok results => Except.ok ((results.take maxResults).map ddgImagesMapResult)
        | Except.error e => Except.error (duckduckgoWrapError e)
      else if effectiveSearchType == "news" then
        match newsTransport opts with
        | Except.ok results =>
            Except.ok ((results.take maxResults).map (ddgNewsMapResult dateRender))
        | Except.error e => Except.error (duckduckgoWrapError e)
      else
        match textTransport opts with
        | Except.ok ms => Except.ok ((ms.take maxResults).map ddgTextMapMatch)
        | Except.error e => Except.error (duckduckgoWrapError e) }

end SearchSDK

namespace SearchSDK

/-! ## General lemmas about the engine -/

/-- The per-adapter wrapper converts a rejected search into a failure entry
tagged with the adapter name. -/
lemma adapterOutcome_of_error (opts : SearchOptions) (p : SearchProvider) (e : SearchError)
    (h : p.search opts = Except.error e) :
    adapterOutcome opts p
      = { provider := p.name, results := [], error := some (detailedErrorMessage p.name e) } := by
  simp [adapterOutcome, h]

/-- The per-adapter wrapper passes a resolved search through unchanged. -/
lemma adapterOutcome_of_ok (opts : SearchOptions) (p : SearchProvider) (rs : List SearchResult)
    (h : p.search opts = Except.ok rs) :
    adapterOutcome opts p = { provider := p.name, results := rs, error := none } := by
  simp [adapterOutcome, h]

/-- The success collection of the engine equals the concatenation, in input
order, of each adapter's own result list (failed adapters contributing
nothing). -/
lemma allResults_eq_flatten (o : SearchOptions) (ps : List SearchProvider) :
    ((ps.map (adapterOutcome o)).filter (fun oc => oc.error.isNone)).flatMap
        (fun oc => oc.results)
      = (ps.map (fun p =>
          match p.search o with
          | Except.ok r => r
          | Except.error _ => [])).flatten := by
  induction ps with
  | nil => rfl
  | cons p ps ih =>
      cases h : p.search o with
      | ok r =>
          simp only [List.map_cons, adapterOutcome_of_ok o p r h, List.filter_cons,
            List.flatten_cons, h]
          simp [ih]
      | error e =>
          simp only [List.map_cons, adapterOutcome_of_error o p e h, List.filter_cons,
            List.flatten_cons, h]
          simp [ih]

/-- No string of the form `All ...` is the missing-query configuration
message. -/
lemma aggregate_header_ne_query_message (s : String) :
    ("All " ++ s) ≠ "A search query or ID list (for Arxiv) is required." := by
  intro h
  have h2 : ("All " ++ s).data
      = ("A search query or ID list (for Arxiv) is required." : String).data := by rw [h]
  rw [String.data_append] at h2
  have h3 : ("All " : String).data = ['A', 'l', 'l', ' '] := rfl
  have h4 : ("A search query or ID list (for Arxiv) is required." : String).data
      = 'A' :: ' ' :: ("search query or ID list (for Arxiv) is required." : String).data := rfl
  rw [h3, h4] at h2
  simp at h2

/-! ## C8: empty adapter list -/

/-- C8: calling `webSearch` with an empty adapter list fails immediately
with the configuration error stating that at least one provider is
required, and no adapter search is invoked. -/
theorem webSearch_requires_provider (options : WebSearchOptions)
    (h : options.provider = []) :
    webSearch options = Except.error "At least one search provider is required."
      ∧ invokedProviders options = [] := by
  constructor <;> simp [webSearch, invokedProviders, webSearchRun, h]

/-- Witness for C8 at a concrete empty adapter list. -/
theorem webSearch_requires_provider_witness :
    webSearch { query := some "climate", provider := [] }
        = Except.error "At least one search provider is required."
      ∧ invokedProviders { query := some "climate", provider := [] } = [] :=
  webSearch_requires_provider { query := some "climate", provider := [] } rfl

/-! ## C3: the missing-query guard -/

/-- An adapter that accepts an identifier list in place of free text: its
search succeeds whenever the request carries a truthy `idList`.  Its name
is not the fixed string the engine tests for. -/
def openalexIdProvider : SearchProvider :=
  { name := "openalex"
    search := fun opts =>
      if jsTruthy opts.idList then
        Except.ok [{ url := "https://openalex.org/W1", title := "W1", provider := "openalex" }]
      else Except.error (SearchError.plainError "openalex requires an id list") }

/-- A queryless request carrying an identifier list, sent to the
identifier-capable adapter above. -/
def c3Options : WebSearchOptions :=
  { query := none, idList := some "W1", provider := [openalexIdProvider] }

/-- C3 counterexample: the supplied adapter accepts an identifier list (its
search would succeed on this very request) and the request carries one,
yet `webSearch` still fails with the configuration error before invoking
any adapter — the relaxation is not adapter-capability-aware. -/
theorem query_guard_ignores_idlist_capability :
    openalexIdProvider.search c3Options.toSearchOptions
        = Except.ok [{ url := "https://openalex.org/W1", title := "W1", provider := "openalex" }]
    ∧ webSearch c3Options = Except.error "A search query or ID list (for Arxiv) is required."
    ∧ invokedProviders c3Options = [] :=
  ⟨rfl, rfl, rfl⟩

/-- Once both preconditions hold, `webSearch` either returns a result list
or throws the aggregate error, whose message starts with `All `. -/
lemma webSearch_post_guard (options : WebSearchOptions)
    (hne' : options.provider.isEmpty = false)
    (hguard : (!jsTruthy options.query
        && !(options.provider.any (fun p => p.name == "arxiv") && jsTruthy options.idList))
          = false) :
    (∃ rs, webSearch options = Except.ok rs)
    ∨ (∃ s, webSearch options = Except.error ("All " ++ s)) := by
  unfold webSearch webSearchRun
  simp only [hne', hguard, Bool.false_eq_true, if_false]
  split
  · right
    refine ⟨toString options.provider.length ++ (" provider(s) failed:\n\n"
      ++ String.intercalate "\n\n" ((options.provider.map
        (adapterOutcome options.toSearchOptions)).filterMap (fun o => o.error))), ?_⟩
    simp [String.append_assoc]
  · left; exact ⟨_, rfl⟩

/-- C3 amended: with no query text, the check keys on the fixed provider
name `arxiv`: the call fails immediately (before any adapter invocation)
with the configuration error unless some supplied adapter is named `arxiv`
and the request carries a truthy identifier list, in which case that
configuration error is not raised. -/
theorem query_guard_keys_on_arxiv_name (options : WebSearchOptions)
    (hq : jsTruthy options.query = false) :
    ((options.provider.any (fun p => p.name == "arxiv") && jsTruthy options.idList) = false →
      options.provider ≠ [] →
      webSearch options = Except.error "A search query or ID list (for Arxiv) is required."
        ∧ invokedProviders options = [])
    ∧ ((options.provider.any (fun p => p.name == "arxiv") && jsTruthy options.idList) = true →
      webSearch options ≠ Except.error "A search query or ID list (for Arxiv) is required.") := by
  constructor
  · intro hg hne
    have hne' : options.provider.isEmpty = false := by
      cases hp : options.provider with
      | nil => exact absurd hp hne
      | cons a l => rfl
    constructor <;> simp [webSearch, invokedProviders, webSearchRun, hne', hq, hg]
  · intro hg h
    have hne' : options.provider.isEmpty = false := by
      cases hp : options.provider with
      | nil => rw [hp] at hg; simp at hg
      | cons a l => rfl
    have hguard : (!jsTruthy options.query
        && !(options.provider.any (fun p => p.name == "arxiv") && jsTruthy options.idList))
          = false := by
      rw [hq, hg]; rfl
    rcases webSearch_post_guard options hne' hguard with ⟨rs, hok⟩ | ⟨s, herr⟩
    · rw [hok] at h; exact Except.noConfusion h
    · rw [herr] at h
      exact aggregate_header_ne_query_message s (Except.error.inj h)

/-- An adapter carrying the fixed name the engine tests for. -/
def arxivNamedProvider : SearchProvider :=
  { name := "arxiv"
    search := fun opts =>
      if jsTruthy opts.idList then
        Except.ok [{ url := "https://arxiv.org/abs/2101.00001", title := "P", provider := "arxiv" }]
      else Except.error (SearchError.plainError "arxiv requires a query or id list") }

/-- A queryless request with an identifier list sent to the arxiv-named
adapter. -/
def c3AmendedOptions : WebSearchOptions :=
  { query := none, idList := some "2101.00001", provider := [arxivNamedProvider] }

/-- Witness for the amended C3 at a concrete arxiv-named adapter. -/
theorem query_guard_keys_on_arxiv_name_witness :
    webSearch c3AmendedOptions
      ≠ Except.error "A search query or ID list (for Arxiv) is required." :=
  (query_guard_keys_on_arxiv_name c3AmendedOptions rfl).2 rfl

/-! ## C1: partial success with an empty result list -/

/-- A provider that succeeds with an empty result list. -/
def alphaEmptyProvider : SearchProvider :=
  { name := "alpha", search := fun _ => Except.ok [] }

/-- A provider that always rejects with a plain error. -/
def betaFailingProvider : SearchProvider :=
  { name := "beta", search := fun _ => Except.error (SearchError.plainError "network unreachable") }

/-- A request against one adapter that succeeds with zero results and one
that fails. -/
def c1Options : WebSearchOptions :=
  { query := some "test", provider := [alphaEmptyProvider, betaFailingProvider] }

/-- C1 (code bug): adapter `alpha` resolves successfully with an empty
result list while `beta` fails, yet `webSearch` throws the aggregate error
— whose message even asserts that all 2 providers failed — instead of
returning the empty concatenation of the successes. -/
theorem webSearch_throws_despite_empty_success :
    alphaEmptyProvider.search c1Options.toSearchOptions = Except.ok []
    ∧ webSearch c1Options
        = Except.error "All 2 provider(s) failed:\n\nSearch with provider \x27beta\x27 failed: network unreachable" :=
  ⟨rfl, rfl⟩

/-! ## C6: concatenation of successes in adapter order -/

/-- A provider that always rejects. -/
def gammaFailingProvider : SearchProvider :=
  { name := "gamma", search := fun _ => Except.error (SearchError.plainError "boom") }

/-- A provider that succeeds with an empty result list. -/
def deltaEmptyProvider : SearchProvider :=
  { name := "delta", search := fun _ => Except.ok [] }

/-- A request with one failing adapter followed by one adapter succeeding
with zero results. -/
def c6Options : WebSearchOptions :=
  { query := some "q", provider := [gammaFailingProvider, deltaEmptyProvider] }

/-- C6 (code bug): first, at a concrete input whose only successful adapter
returns an empty list, `webSearch` throws instead of returning the (empty)
concatenation of the successes; second, whenever `webSearch` does return a
list, that list is exactly the concatenation, in adapter input order, of
the per-adapter result lists of the successful adapters, each preserved
verbatim. -/
theorem webSearch_returns_ordered_concatenation :
    (deltaEmptyProvider.search c6Options.toSearchOptions = Except.ok []
      ∧ webSearch c6Options
        = Except.error "All 2 provider(s) failed:\n\nSearch with provider \x27gamma\x27 failed: boom")
    ∧ ∀ (options : WebSearchOptions) (rs : List SearchResult),
        webSearch options = Except.ok rs →
        rs = (options.provider.map (fun p =>
            match p.search options.toSearchOptions with
            | Except.ok r => r
            | Except.error _ => [])).flatten := by
  constructor
  · exact ⟨rfl, rfl⟩
  · intro options rs h
    simp only [webSearch, webSearchRun] at h
    split at h
    · exact absurd h (by simp)
    · split at h
      · exact absurd h (by simp)
      · split at h
        · exact absurd h (by simp)
        · have h' := Except.ok.inj h
          rw [← h']
          exact allResults_eq_flatten options.toSearchOptions options.provider

/-- Fixed result records for the C6 witness. -/
def eResult1 : SearchResult :=
  { url := "https://e.example/1", title := "E1", provider := "epsilon" }

/-- Second fixed result record. -/
def eResult2 : SearchResult :=
  { url := "https://e.example/2", title := "E2", provider := "epsilon" }

/-- Third fixed result record. -/
def tResult1 : SearchResult :=
  { url := "https://t.example/1", title := "T1", provider := "eta" }

/-- A provider with two results. -/
def epsilonTwoProvider : SearchProvider :=
  { name := "epsilon", search := fun _ => Except.ok [eResult1, eResult2] }

/-- A failing provider for the C6 witness. -/
def zetaFailingProvider : SearchProvider :=
  { name := "zeta", search := fun _ => Except.error (SearchError.plainError "down") }

/-- A provider with one result. -/
def etaOneProvider : SearchProvider :=
  { name := "eta", search := fun _ => Except.ok [tResult1] }

/-- Two successful adapters around a failing one. -/
def c6WitnessOptions : WebSearchOptions :=
  { query := some "q", provider := [epsilonTwoProvider, zetaFailingProvider, etaOneProvider] }

/-- Witness for the ordering conjunct of C6 at a concrete mixed outcome. -/
theorem webSearch_returns_ordered_concatenation_witness :
    webSearch c6WitnessOptions = Except.ok [eResult1, eResult2, tResult1]
    ∧ [eResult1, eResult2, tResult1]
        = (c6WitnessOptions.provider.map (fun p =>
            match p.search c6WitnessOptions.toSearchOptions with
            | Except.ok r => r
            | Except.error _ => [])).flatten :=
  ⟨rfl, webSearch_returns_ordered_concatenation.2 c6WitnessOptions [eResult1, eResult2, tResult1] rfl⟩

/-! ## C2: every adapter fails -/

/-- The detailed failure message carries the adapter name right after its
fixed lead-in, and carries the underlying failure text. -/
lemma detailedErrorMessage_decomp (n : String) (e : SearchError) :
    (∃ post : String,
      detailedErrorMessage n e = "Search with provider \x27" ++ n ++ post)
    ∧ ∃ pre post : String, detailedErrorMessage n e = pre ++ messageOf e ++ post := by
  unfold detailedErrorMessage
  cases h : (getTroubleshootingInfo n (messageOf e) (statusCodeOf e)).isEmpty
  · simp only [h, Bool.false_eq_true, if_false]
    constructor
    · refine ⟨"\x27 failed: " ++ messageOf e ++ ("\n\nTroubleshooting: "
        ++ getTroubleshootingInfo n (messageOf e) (statusCodeOf e)), ?_⟩
      simp [String.append_assoc]
    · refine ⟨"Search with provider \x27" ++ n ++ "\x27 failed: ", "\n\nTroubleshooting: "
        ++ getTroubleshootingInfo n (messageOf e) (statusCodeOf e), ?_⟩
      simp [String.append_assoc]
  · simp only [h, if_true]
    constructor
    · exact ⟨"\x27 failed: " ++ messageOf e, by simp [String.append_assoc]⟩
    · exact ⟨"Search with provider \x27" ++ n ++ "\x27 failed: ", "",
        by simp [String.append_assoc]⟩

/-- C2: when every adapter rejects, `webSearch` throws a single aggregate
error whose message is the header followed by the per-adapter failure
messages joined as separate paragraphs, one per adapter in invocation
order, each containing that adapter's name and its failure text. -/
theorem webSearch_all_fail_aggregate (options : WebSearchOptions)
    (errOf : SearchProvider → SearchError)
    (hne : options.provider ≠ [])
    (hq : jsTruthy options.query = true)
    (hfail : ∀ p ∈ options.provider,
      p.search options.toSearchOptions = Except.error (errOf p)) :
    webSearch options
      = Except.error ("All " ++ toString options.provider.length ++ " provider(s) failed:\n\n"
          ++ String.intercalate "\n\n"
            (options.provider.map (fun p => detailedErrorMessage p.name (errOf p))))
    ∧ ∀ p ∈ options.provider,
        (∃ pre post : String,
          detailedErrorMessage p.name (errOf p) = pre ++ p.name ++ post)
        ∧ ∃ pre post : String,
          detailedErrorMessage p.name (errOf p) = pre ++ messageOf (errOf p) ++ post := by
  have hmap : options.provider.map (adapterOutcome options.toSearchOptions)
      = options.provider.map (fun p =>
          ({ provider := p.name, results := [],
             error := some (detailedErrorMessage p.name (errOf p)) } : PerAdapterOutcome)) :=
    List.map_congr_left (fun p hp => adapterOutcome_of_error _ p _ (hfail p hp))
  have hne' : options.provider.isEmpty = false := by
    cases hp : options.provider with
    | nil => exact absurd hp hne
    | cons a l => rfl
  have hguard : (!jsTruthy options.query
      && !(options.provider.any (fun p => p.name == "arxiv") && jsTruthy options.idList))
        = false := by
    rw [hq]; rfl
  constructor
  · have hfilter : ((options.provider.map (fun p =>
        ({ provider := p.name, results := [],
           error := some (detailedErrorMessage p.name (errOf p)) } : PerAdapterOutcome))).filter
          (fun o => o.error.isNone)) = [] := by
      rw [List.filter_eq_nil_iff]
      intro a ha
      rcases List.mem_map.mp ha with ⟨p, hp, rfl⟩
      simp
    have hfm : ((options.provider.map (fun p =>
        ({ provider := p.name, results := [],
           error := some (detailedErrorMessage p.name (errOf p)) } : PerAdapterOutcome))).filterMap
          (fun o => o.error))
        = options.provider.map (fun p => detailedErrorMessage p.name (errOf p)) := by
      rw [List.filterMap_map]
      have hcomp : ((fun o => o.error) ∘ (fun p =>
          ({ provider := p.name, results := [],
             error := some (detailedErrorMessage p.name (errOf p)) } : PerAdapterOutcome)))
          = some ∘ (fun p => detailedErrorMessage p.name (errOf p)) := rfl
      rw [hcomp, List.filterMap_eq_map]
    have hmapsne : options.provider.map
        (fun p => detailedErrorMessage p.name (errOf p)) ≠ [] := by
      simp [hne]
    unfold webSearch webSearchRun
    simp only [hne', hguard, Bool.false_eq_true, if_false, hmap, hfilter, hfm]
    simp [List.isEmpty_iff, hmapsne]
  · intro p hp
    obtain ⟨⟨post1, h1⟩, pre2, post2, h2⟩ := detailedErrorMessage_decomp p.name (errOf p)
    exact ⟨⟨"Search with provider \x27", post1, h1⟩, pre2, post2, h2⟩

/-- A failing provider for the C2 witness. -/
def kappaFailingProvider : SearchProvider :=
  { name := "kappa", search := fun _ => Except.error (SearchError.plainError "kaboom") }

/-- A second failing provider for the C2 witness, rejecting with an
`HttpError`. -/
def muFailingProvider : SearchProvider :=
  { name := "mu", search := fun _ =>
      Except.error (SearchError.httpError "Request failed with status: 503 oops" 503) }

/-- Both adapters of the C2 witness fail. -/
def c2Options : WebSearchOptions :=
  { query := some "q", provider := [kappaFailingProvider, muFailingProvider] }

/-- The per-adapter error of each C2 witness provider. -/
def c2ErrOf (p : SearchProvider) : SearchError :=
  if p.name == "kappa" then SearchError.plainError "kaboom"
  else SearchError.httpError "Request failed with status: 503 oops" 503

/-- Witness for C2 at two concrete failing adapters. -/
theorem webSearch_all_fail_aggregate_witness :
    webSearch c2Options
      = Except.error ("All " ++ toString c2Options.provider.length ++ " provider(s) failed:\n\n"
          ++ String.intercalate "\n\n"
            (c2Options.provider.map (fun p => detailedErrorMessage p.name (c2ErrOf p)))) :=
  (webSearch_all_fail_aggregate c2Options c2ErrOf (by simp [c2Options]) rfl
    (by
      intro p hp
      simp only [c2Options, List.mem_cons, List.mem_singleton] at hp
      rcases hp with h | h | h
      · subst h; rfl
      · subst h; rfl
      · exact absurd h (by simp))).1

/-! ## C7: per-adapter isolation -/

/-- C7: any error raised by an adapter search is caught by the per-adapter
wrapper and converted into a failure entry tagged with that adapter's name
(never propagated raw); successes pass through untouched; and once the
preconditions hold every adapter in the list is invoked exactly once, in
input order, regardless of any failures. -/
theorem per_adapter_isolation :
    (∀ (opts : SearchOptions) (p : SearchProvider) (e : SearchError),
      p.search opts = Except.error e →
      adapterOutcome opts p
        = { provider := p.name, results := [],
            error := some (detailedErrorMessage p.name e) })
    ∧ (∀ (opts : SearchOptions) (p : SearchProvider) (rs : List SearchResult),
      p.search opts = Except.ok rs →
      adapterOutcome opts p = { provider := p.name, results := rs, error := none })
    ∧ ∀ (options : WebSearchOptions),
      options.provider ≠ [] → jsTruthy options.query = true →
      invokedProviders options = options.provider.map (fun p => p.name) := by
  refine ⟨adapterOutcome_of_error, adapterOutcome_of_ok, ?_⟩
  intro options hne hq
  have hne' : options.provider.isEmpty = false := by
    cases hp : options.provider with
    | nil => exact absurd hp hne
    | cons a l => rfl
  have hguard : (!jsTruthy options.query
      && !(options.provider.any (fun p => p.name == "arxiv") && jsTruthy options.idList))
        = false := by
    rw [hq]; rfl
  unfold invokedProviders webSearchRun
  simp only [hne', hguard, Bool.false_eq_true, if_false]
  split <;> rfl

/-- A failing provider rejecting with an `HttpError`, for the C7 witness. -/
def iotaFailingProvider : SearchProvider :=
  { name := "iota", search := fun _ =>
      Except.error (SearchError.httpError "Request failed with status: 500 oops" 500) }

/-- A request carrying only the failing provider above. -/
def c7Options : WebSearchOptions :=
  { query := some "q", provider := [iotaFailingProvider] }

/-- Witness for C7 at a concrete rejecting adapter. -/
theorem per_adapter_isolation_witness :
    adapterOutcome c7Options.toSearchOptions iotaFailingProvider
      = { provider := "iota", results := [],
          error := some (detailedErrorMessage "iota"
            (SearchError.httpError "Request failed with status: 500 oops" 500)) }
    ∧ invokedProviders c7Options = ["iota"] :=
  ⟨per_adapter_isolation.1 c7Options.toSearchOptions iotaFailingProvider
      (SearchError.httpError "Request failed with status: 500 oops" 500) rfl,
    per_adapter_isolation.2.2 c7Options (by simp [c7Options]) rfl⟩

/-! ## C4: troubleshooting hint precedence -/

/-- C4: for the five provider names carrying a static hint, the
troubleshooting text is always that static hint, whatever the status code
and message (the provider-specific hint overrides the status-derived one);
for any other provider name (with no complex-data marker in the message)
the status-code-derived hint is used: 401/403 auth, 400 bad parameters,
429 rate limit, at least 500 outage. -/
theorem providerHint_overrides_statusHint :
    (∀ (msg : String) (code : Option Nat),
      getTroubleshootingInfo "google" msg code
          = "Make sure your Google API key is valid and the Custom Search API is enabled. Also, check if your Search Engine ID (cx) is correct."
        ∧ getTroubleshootingInfo "serpapi" msg code
          = "Check that your SerpAPI key is valid and that you have enough credits in your account."
        ∧ getTroubleshootingInfo "brave" msg code
          = "Ensure your Brave Search API token is valid and your subscription is active."
        ∧ getTroubleshootingInfo "searxng" msg code
          = "Check if your SearXNG instance URL is correct and the server is running."
        ∧ getTroubleshootingInfo "duckduckgo" msg code
          = "DuckDuckGo scraping can be unreliable. This may be a temporary issue. Try again later.")
    ∧ ∀ (name msg : String) (c : Nat),
        name ∉ (["google", "serpapi", "brave", "searxng", "duckduckgo"] : List String) →
        strIncludes msg "[object Object]" = false →
        ((c = 401 ∨ c = 403) → getTroubleshootingInfo name msg (some c)
            = "This is likely an authentication issue. Check your API key and ensure it has the correct permissions.")
        ∧ (c = 400 → getTroubleshootingInfo name msg (some c)
            = "This is likely due to invalid request parameters. Check your query and other search options.")
        ∧ (c = 429 → getTroubleshootingInfo name msg (some c)
            = "You\x27ve exceeded the rate limit for this API. Try again later or reduce your request frequency.")
        ∧ (500 ≤ c → getTroubleshootingInfo name msg (some c)
            = "The search provider is experiencing server issues. Try again later.") := by
  constructor
  · intro msg code
    exact ⟨rfl, rfl, rfl, rfl, rfl⟩
  · intro name msg c hnotin hoo
    simp only [List.mem_cons, List.not_mem_nil, or_false, not_or] at hnotin
    obtain ⟨h1, h2, h3, h4, h5⟩ := hnotin
    have b1 := beq_eq_false_iff_ne.mpr h1
    have b2 := beq_eq_false_iff_ne.mpr h2
    have b3 := beq_eq_false_iff_ne.mpr h3
    have b4 := beq_eq_false_iff_ne.mpr h4
    have b5 := beq_eq_false_iff_ne.mpr h5
    refine ⟨?_, ?_, ?_, ?_⟩
    · rintro (rfl | rfl) <;> simp [getTroubleshootingInfo, hoo, b1, b2, b3, b4, b5]
    · rintro rfl; simp [getTroubleshootingInfo, hoo, b1, b2, b3, b4, b5]
    · rintro rfl; simp [getTroubleshootingInfo, hoo, b1, b2, b3, b4, b5]
    · intro h500
      have n1 : (c == 401) = false := beq_eq_false_iff_ne.mpr (by omega)
      have n2 : (c == 403) = false := beq_eq_false_iff_ne.mpr (by omega)
      have n3 : (c == 400) = false := beq_eq_false_iff_ne.mpr (by omega)
      have n4 : (c == 429) = false := beq_eq_false_iff_ne.mpr (by omega)
      simp [getTroubleshootingInfo, hoo, b1, b2, b3, b4, b5, n1, n2, n3, n4, h500]

/-- Witness for C4: with a 429 status, the google name still gets its
static hint, while a name without a static hint gets the rate-limit
hint. -/
theorem providerHint_overrides_statusHint_witness :
    getTroubleshootingInfo "google" "boom" (some 429)
        = "Make sure your Google API key is valid and the Custom Search API is enabled. Also, check if your Search Engine ID (cx) is correct."
    ∧ getTroubleshootingInfo "nimble" "boom" (some 429)
        = "You\x27ve exceeded the rate limit for this API. Try again later or reduce your request frequency." :=
  ⟨(providerHint_overrides_statusHint.1 "boom" (some 429)).1,
    (providerHint_overrides_statusHint.2 "nimble" "boom" 429 (by decide)
      (by decide)).2.2.1 rfl⟩

/-! ## C5: bundled adapters mask HTTP status codes -/

/-- C5: the catch clause of each bundled adapter (google, brave, exa,
tavily, searxng, duckduckgo) converts any error — `HttpError` included —
into a plain error without a status code, so the engine's status-code
extraction yields none for errors from these adapters; a status code
reaches the engine only from an error that still is an `HttpError`.  For
brave, a queryless request fails before the transport is consulted, with
the unwrapped plain guard error, which carries no status code either.  The
last conjunct shows the engine computes the failure entry (and hence the
chosen hint) from exactly that extraction. -/
theorem bundled_adapters_mask_status_codes :
    (∀ (e : SearchError),
      statusCodeOf (googleWrapError e) = none
      ∧ statusCodeOf (braveWrapError e) = none
      ∧ statusCodeOf (exaWrapError e) = none
      ∧ statusCodeOf (tavilyWrapError e) = none
      ∧ statusCodeOf (searxngWrapError e) = none
      ∧ statusCodeOf (duckduckgoWrapError e) = none)
    ∧ (∀ (transport : SearchOptions → Except SearchError GoogleSearchResponse)
        (opts : SearchOptions) (e : SearchError),
        transport opts = Except.error e →
        (createGoogleProvider transport).search opts = Except.error (googleWrapError e))
    ∧ (∀ (transport : SearchOptions → Except SearchError BraveSearchResponse)
        (opts : SearchOptions) (e : SearchError),
        jsTruthy opts.query = true →
        transport opts = Except.error e →
        (createBraveProvider transport).search opts = Except.error (braveWrapError e))
    ∧ (∀ (transport : SearchOptions → Except SearchError BraveSearchResponse)
        (opts : SearchOptions),
        jsTruthy opts.query = false →
        (createBraveProvider transport).search opts
          = Except.error (SearchError.plainError "Brave search requires a query."))
    ∧ (∀ (m : String) (c : Nat), statusCodeOf (SearchError.httpError m c) = some c)
    ∧ ∀ (opts : SearchOptions) (p : SearchProvider) (e : SearchError),
        p.search opts = Except.error e →
        (adapterOutcome opts p).error = some (detailedErrorMessage p.name e) := by
  refine ⟨?_, ?_, ?_, ?_, fun m c => rfl, ?_⟩
  · intro e
    cases e <;> exact ⟨rfl, rfl, rfl, rfl, rfl, rfl⟩
  · intro transport opts e h
    simp [createGoogleProvider, h]
  · intro transport opts e hq h
    simp [createBraveProvider, hq, h]
  · intro transport opts hq
    simp [createBraveProvider, hq]
  · intro opts p e h
    rw [adapterOutcome_of_error opts p e h]

/-- A transport that fails with a 403 `HttpError`, for the C5 witness. -/
def c5Transport : SearchOptions → Except SearchError GoogleSearchResponse :=
  fun _ => Except.error (SearchError.httpError "Request failed with status: 403 Forbidden" 403)

/-- A brave transport that fails with a 429 `HttpError`, for the C5
witness. -/
def c5BraveTransport : SearchOptions → Except SearchError BraveSearchResponse :=
  fun _ => Except.error (SearchError.httpError "Request failed with status: 429 oops" 429)

/-- Witness for C5: the google adapter turns a 403 transport failure into
a plain error that exposes no status code to the engine; the brave adapter
does the same with a 429 transport failure when a query is present, and
fails with the unwrapped plain guard error when the query is missing. -/
theorem bundled_adapters_mask_status_codes_witness :
    (createGoogleProvider c5Transport).search { query := some "q" }
        = Except.error
            (SearchError.plainError "Google search failed: Request failed with status: 403 Forbidden")
    ∧ statusCodeOf
        (SearchError.plainError "Google search failed: Request failed with status: 403 Forbidden")
      = none
    ∧ (createBraveProvider c5BraveTransport).search { query := some "q" }
        = Except.error
            (SearchError.plainError "Brave search failed: Request failed with status: 429 oops")
    ∧ (createBraveProvider c5BraveTransport).search { query := none }
        = Except.error (SearchError.plainError "Brave search requires a query.") :=
  ⟨bundled_adapters_mask_status_codes.2.1 c5Transport { query := some "q" }
      (SearchError.httpError "Request failed with status: 403 Forbidden" 403) rfl,
    rfl,
    bundled_adapters_mask_status_codes.2.2.1 c5BraveTransport { query := some "q" }
      (SearchError.httpError "Request failed with status: 429 oops" 429) rfl rfl,
    bundled_adapters_mask_status_codes.2.2.2.1 c5BraveTransport { query := none } rfl⟩

/-! ## C9: the provider field matches the adapter name -/

/-- C9: every result record produced by a bundled provider adapter's search
carries that adapter's name in its `provider` field. -/
theorem provider_field_matches_adapter_name :
    (∀ (t : SearchOptions → Except SearchError GoogleSearchResponse) (opts : SearchOptions)
      (rs : List SearchResult), (createGoogleProvider t).search opts = Except.ok rs →
      ∀ r ∈ rs, r.provider = (createGoogleProvider t).name)
    ∧ (∀ (t : SearchOptions → Except SearchError SerpApiResponse) (opts : SearchOptions)
      (rs : List SearchResult), (createSerpApiProvider t).search opts = Except.ok rs →
      ∀ r ∈ rs, r.provider = (createSerpApiProvider t).name)
    ∧ (∀ (t : SearchOptions → Except SearchError BraveSearchResponse) (opts : SearchOptions)
      (rs : List SearchResult), (createBraveProvider t).search opts = Except.ok rs →
      ∀ r ∈ rs, r.provider = (createBraveProvider t).name)
    ∧ (∀ (t : SearchOptions → Except SearchError ExaSearchResponse) (opts : SearchOptions)
      (rs : List SearchResult), (createExaProvider t).search opts = Except.ok rs →
      ∀ r ∈ rs, r.provider = (createExaProvider t).name)
    ∧ (∀ (t : SearchOptions → Except SearchError TavilySearchResponse) (opts : SearchOptions)
      (rs : List SearchResult), (createTavilyProvider t).search opts = Except.ok rs →
      ∀ r ∈ rs, r.provider = (createTavilyProvider t).name)
    ∧ (∀ (t : SearchOptions → Except SearchError SearxNGResponse) (opts : SearchOptions)
      (rs : List SearchResult), (createSearxNGProvider t).search opts = Except.ok rs →
      ∀ r ∈ rs, r.provider = (createSearxNGProvider t).name)
    ∧ ∀ (cfg : DuckDuckGoConfig)
      (tt : SearchOptions → Except SearchError (List (String × String × String)))
      (it : SearchOptions → Except SearchError (List DuckDuckGoImageResult))
      (nt : SearchOptions → Except SearchError (List DuckDuckGoNewsResult))
      (dr : Int → String) (opts : SearchOptions) (rs : List SearchResult),
      (createDuckDuckGoProvider cfg tt it nt dr).search opts = Except.ok rs →
      ∀ r ∈ rs, r.provider = (createDuckDuckGoProvider cfg tt it nt dr).name := by
  refine ⟨?_, ?_, ?_, ?_, ?_, ?_, ?_⟩
  · intro t opts rs h r hr
    simp only [createGoogleProvider] at h
    split at h
    · split at h
      · rw [← Except.ok.inj h] at hr
        exact absurd hr (by simp)
      · rw [← Except.ok.inj h] at hr
        rcases List.mem_map.mp hr with ⟨x, hx, rfl⟩
        rfl
    · exact absurd h (by simp)
  · intro t opts rs h r hr
    simp only [createSerpApiProvider] at h
    split at h
    · split at h
      · exact absurd h (by simp)
      · split at h
        · rw [← Except.ok.inj h] at hr
          exact absurd hr (by simp)
        · rw [← Except.ok.inj h] at hr
          rcases List.mem_map.mp hr with ⟨x, hx, rfl⟩
          rfl
    · exact absurd h (by simp)
  · intro t opts rs h r hr
    simp only [createBraveProvider] at h
    split at h
    · exact absurd h (by simp)
    · split at h
      · split at h
        · rw [← Except.ok.inj h] at hr
          exact absurd hr (by simp)
        · rw [← Except.ok.inj h] at hr
          rcases List.mem_map.mp hr with ⟨x, hx, rfl⟩
          rfl
      · exact absurd h (by simp)
  · intro t opts rs h r hr
    simp only [createExaProvider] at h
    split at h
    · split at h
      · rw [← Except.ok.inj h] at hr
        exact absurd hr (by simp)
      · split at h
        · rw [← Except.ok.inj h] at hr
          exact absurd hr (by simp)
        · rw [← Except.ok.inj h] at hr
          rcases List.mem_map.mp hr with ⟨x, hx, rfl⟩
          rfl
    · exact absurd h (by simp)
  · intro t opts rs h r hr
    simp only [createTavilyProvider] at h
    split at h
    · split at h
      · rw [← Except.ok.inj h] at hr
        exact absurd hr (by simp)
      · rw [← Except.ok.inj h] at hr
        rcases List.mem_map.mp hr with ⟨x, hx, rfl⟩
        rfl
    · exact absurd h (by simp)
  · intro t opts rs h r hr
    simp only [createSearxNGProvider] at h
    split at h
    · split at h
      · rw [← Except.ok.inj h] at hr
        exact absurd hr (by simp)
      · rw [← Except.ok.inj h] at hr
        rcases List.mem_map.mp hr with ⟨x, hx, rfl⟩
        rfl
    · exact absurd h (by simp)
  · intro cfg tt it nt dr opts rs h r hr
    simp only [createDuckDuckGoProvider] at h
    split at h
    · exact absurd h (by simp)
    · split at h
      · split at h
        · rw [← Except.ok.inj h] at hr
          rcases List.mem_map.mp hr with ⟨x, hx, rfl⟩
          rfl
        · exact absurd h (by simp)
      · split at h
        · split at h
          · rw [← Except.ok.inj h] at hr
            rcases List.mem_map.mp hr with ⟨x, hx, rfl⟩
            rfl
          · exact absurd h (by simp)
        · split at h
          · rw [← Except.ok.inj h] at hr
            rcases List.mem_map.mp hr with ⟨x, hx, rfl⟩
            rfl
          · exact absurd h (by simp)

/-- A concrete google item for the C9 witness. -/
def c9GoogleItem : GoogleSearchItem :=
  { title := "T", link := "https://g.example/1", snippet := "S", displayLink := "g.example" }

/-- A transport delivering one google item, for the C9 witness. -/
def c9GoogleTransport : SearchOptions → Except SearchError GoogleSearchResponse :=
  fun _ => Except.ok { items := some [c9GoogleItem] }

/-- Witness for C9: a concrete google response maps to a record whose
provider field is the adapter name. -/
theorem provider_field_matches_adapter_name_witness :
    (createGoogleProvider c9GoogleTransport).search { query := some "q" }
        = Except.ok [googleMapItem c9GoogleItem]
    ∧ (googleMapItem c9GoogleItem).provider = (createGoogleProvider c9GoogleTransport).name :=
  ⟨rfl,
    provider_field_matches_adapter_name.1 c9GoogleTransport { query := some "q" }
      [googleMapItem c9GoogleItem] rfl (googleMapItem c9GoogleItem) (by simp)⟩

/-! ## C10: timeout errors are distinguishable -/

/-- C10: when the configured timeout expires, `makeRequest` fails with the
timeout-flavored plain error `Request timed out after \x7btimeout\x7dms`,
which carries no status code, while a non-2xx response fails with an
`HttpError` carrying its status code — the two are distinguishable. -/
theorem makeRequest_timeout_distinguishable :
    ∀ (t : Nat),
      (@makeRequest Unit (some t) FetchOutcome.abortTimeout
        = Except.error (SearchError.plainError ("Request timed out after " ++ toString t ++ "ms")))
      ∧ (∀ (m : String), statusCodeOf (SearchError.plainError m) = none)
      ∧ ∀ (s : Nat) (st : String) (d : Option String),
          ∃ msg, @makeRequest Unit (some t) (FetchOutcome.httpFailure s st d)
              = Except.error (SearchError.httpError msg s)
            ∧ statusCodeOf (SearchError.httpError msg s) = some s := by
  intro t
  refine ⟨rfl, fun m => rfl, ?_⟩
  intro s st d
  exact ⟨(if jsTruthy d
      then "Request failed with status: " ++ toString s ++ " " ++ st ++ " - " ++ d.getD ""
      else "Request failed with status: " ++ toString s ++ " " ++ st), rfl, rfl⟩

end SearchSDK
